import Mathlib

/-!
Shallow embedding of `chirp/configs/presets.py`: the preset-configuration
builders of the chirp audio-ML pipeline.

Modelling choices, stated once:

* A `ml_collections.config_dict.ConfigDict` is an ordered field map,
  embedded as an association list `List (String × Value)` that preserves
  insertion order.  Assigning an existing field replaces its value in
  place; assigning a new field appends it (Python dict semantics).
* A `FieldReference` (`config.get_ref(name)`) is embedded by the name of
  the referenced field, `Value.ref name`.  Every preset build has a
  single base config, and resolution receives that (possibly updated)
  base node explicitly, so the live-reference semantics of the Python
  object identity is recovered by state passing.
* A `chirp.config_utils.callable_config` node (`_c(kind, **kwargs)`) is
  embedded as `Value.call kind args`: a deferred call descriptor, never
  executed.
* Python numeric literals in this file are ints and exact decimal
  floats (0.2, 0.15, 0.25, 0.0001, 0.0); they are carried inertly and
  never subjected to rounding, so they are embedded as exact rationals
  (`0.2` as `2/10`, etc.).
* A Python `raise ValueError(msg)` is embedded as `Except.error msg`.
  Note the source message at presets.py line 127 is a *plain* string
  literal, not an f-string: the text `{kernel_size}` is part of the
  message verbatim.  The embedding reproduces that literal text (braces
  written with escapes).
-/

/-- Configuration values: literal primitives, tuples/lists, lazy field
references, lazy products of references (as built by `FieldReference`
arithmetic), and deferred call descriptors. -/
inductive Value where
  | num (q : ℚ)
  | str (s : String)
  | bool (b : Bool)
  | tup (items : List Value)
  | ref (field : String)
  | mul (a b : Value)
  | call (kind : String) (args : List (String × Value))

/-- An ordered field map, the embedding of `config_dict.ConfigDict`. -/
abbrev ConfigDict := List (String × Value)

/-- Field lookup on a config node (Python attribute read). -/
def lookupField : ConfigDict → String → Option Value
  | [], _ => none
  | (k, v) :: rest, f => if k = f then some v else lookupField rest f

/-- Field assignment: replace the value of an existing field in place,
or append a brand-new field at the end (Python dict assignment). -/
def setField : ConfigDict → String → Value → ConfigDict
  | [], f, v => [(f, v)]
  | (k, w) :: rest, f, v =>
    if k = f then (f, v) :: rest else (k, w) :: setField rest f v

/-- In-order application of a list of field updates, the embedding of
`config.update(kwargs)`.  Later pairs in the list shadow earlier ones. -/
def configUpdate (c : ConfigDict) : List (String × Value) → ConfigDict
  | [] => c
  | (f, v) :: rest => configUpdate (setField c f v) rest

/-- Field names of a node, in declaration order. -/
def fieldNames (c : ConfigDict) : List String := c.map Prod.fst

/-- Embedding of `config.get_ref(field)`: a live reference into the
single base node of the build, identified by field name (the node
itself is supplied at resolution time). -/
def get_ref (_config : ConfigDict) (field : String) : Value := .ref field

mutual

/-- One resolution pass over a value against the current base node:
references are replaced by the referenced field's current value, lazy
products are evaluated, tuples and deferred-call arguments are resolved
structurally (the call itself is never executed).  `none` models a
resolution error (unknown field, ill-typed lazy product). -/
def resolveValue (base : ConfigDict) : Value → Option Value
  | .num q => some (.num q)
  | .str s => some (.str s)
  | .bool b => some (.bool b)
  | .ref f => lookupField base f
  | .mul a b =>
    match resolveValue base a, resolveValue base b with
    | some (.num x), some (.num y) => some (.num (x * y))
    | _, _ => none
  | .tup items => (resolveList base items).map Value.tup
  | .call k args => (resolveArgs base args).map (Value.call k)

/-- Resolve each element of a value list (see `resolveValue`). -/
def resolveList (base : ConfigDict) : List Value → Option (List Value)
  | [] => some []
  | v :: rest => do
    let rv ← resolveValue base v
    let rrest ← resolveList base rest
    pure (rv :: rrest)

/-- Resolve each named argument of a deferred call (see `resolveValue`). -/
def resolveArgs (base : ConfigDict) : List (String × Value) → Option (List (String × Value))
  | [] => some []
  | (n, v) :: rest => do
    let rv ← resolveValue base v
    let rrest ← resolveArgs base rest
    pure ((n, rv) :: rrest)

end

/-- Embedding of `get_base_config(**kwargs)`: the base config node with
its literal defaults, then `kwargs` applied in order. -/
def get_base_config (kwargs : List (String × Value)) : ConfigDict :=
  configUpdate
    [ ("sample_rate_hz", .num 32000),
      ("train_window_size_s", .num 5),
      ("eval_window_size_s", .num 5),
      ("frame_rate_hz", .num 100),
      ("num_channels", .num 160),
      ("batch_size", .num 64),
      ("add_taxonomic_labels", .bool true),
      ("target_class_list", .str "xenocanto"),
      ("num_train_steps", .num 1000000),
      ("pad_mask", .bool false),
      ("tfds_data_dir", .str "") ]
    kwargs

/-- Embedding of `get_base_init_config(config, **kwargs)`. -/
def get_base_init_config (config : ConfigDict) (kwargs : List (String × Value)) : ConfigDict :=
  configUpdate
    [ ("input_shape",
        .tup [.mul (get_ref config "train_window_size_s") (get_ref config "sample_rate_hz")]),
      ("learning_rate", .num (1/10000)),
      ("rng_seed", .num 0),
      ("target_class_list", get_ref config "target_class_list") ]
    kwargs

/-- Embedding of `get_base_train_config(config, **kwargs)`. -/
def get_base_train_config (config : ConfigDict) (kwargs : List (String × Value)) : ConfigDict :=
  configUpdate
    [ ("num_train_steps", get_ref config "num_train_steps"),
      ("log_every_steps", .num 250),
      ("checkpoint_every_steps", .num 25000) ]
    kwargs

/-- Embedding of `get_base_eval_config(config, **kwargs)`. -/
def get_base_eval_config (config : ConfigDict) (kwargs : List (String × Value)) : ConfigDict :=
  configUpdate
    [ ("num_train_steps", get_ref config "num_train_steps"),
      ("eval_steps_per_checkpoint", .num 1000),
      ("tflite_export", .bool true) ]
    kwargs

/-- The fixed power-of-two transform-size ladder of the deriver. -/
def nfftLadder : List ℕ := [256, 512, 1024, 2048, 4096]

/-- The exact message of `raise ValueError(...)` at presets.py line 127.
The source string is not an f-string, so the placeholder text is part of
the message verbatim. -/
def largeKernelMsg : String := "Large kernel \x7bkernel_size\x7d; please define nfft."

/-- Embedding of the `if kernel_size <= 256: ... elif ... else: raise`
chain of `get_pcen_melspec_config`: select the transform size for a
given kernel size, or fail. -/
def selectNfft (kernel_size : ℕ) : Except String ℕ :=
  if kernel_size ≤ 256 then .ok 256
  else if kernel_size ≤ 512 then .ok 512
  else if kernel_size ≤ 1024 then .ok 1024
  else if kernel_size ≤ 2048 then .ok 2048
  else if kernel_size ≤ 4096 then .ok 4096
  else .error largeKernelMsg

/-- Embedding of `get_pcen_melspec_config(config)`, taking the current
integer values of the base fields `sample_rate_hz` and `frame_rate_hz`
(Python `//` on positive ints is truncating division, `Nat.div`).  On
success it returns the deferred frontend call descriptor; the `raise`
branch becomes `Except.error`. -/
def get_pcen_melspec_config (sample_rate_hz frame_rate_hz : ℕ) : Except String Value :=
  let frontend_stride := sample_rate_hz / frame_rate_hz
  let kernel_size := 2 * frontend_stride
  match selectNfft kernel_size with
  | .error e => .error e
  | .ok nfft =>
    .ok (.call "frontend.MelSpectrogram"
      [ ("features", .ref "num_channels"),
        ("stride", .num frontend_stride),
        ("kernel_size", .num kernel_size),
        ("nfft", .num nfft),
        ("sample_rate", .ref "sample_rate_hz"),
        ("freq_range", .tup [.num 60, .num 10000]),
        ("scaling_config", .call "frontend.PCENScalingConfig" [("conv_width", .num 256)]) ])

/-- A pipeline dataset config node: the deferred `pipeline.Pipeline`
call plus the scalar metadata fields set on it. -/
structure PipelineSpec where
  pipeline : Value
  split : String
  tfds_data_dir : Value
  dataset_directory : String

/-- Embedding of `get_supervised_train_pipeline(config, mixin_prob,
train_dataset_dir)`: the ordered train stage list. -/
def get_supervised_train_pipeline (config : ConfigDict) (mixin_prob : ℚ)
    (train_dataset_dir : String) : PipelineSpec where
  pipeline := .call "pipeline.Pipeline"
    [ ("ops", .tup
      [ .call "pipeline.Shuffle" [("shuffle_buffer_size", .num 512)],
        .call "pipeline.OnlyJaxTypes" [],
        .call "pipeline.ConvertBirdTaxonomyLabels"
          [ ("source_namespace", .str "ebird2021"),
            ("target_class_list", get_ref config "target_class_list"),
            ("add_taxonomic_labels", get_ref config "add_taxonomic_labels") ],
        .call "pipeline.MixAudio" [("mixin_prob", .num mixin_prob)],
        .call "pipeline.Pad"
          [ ("pad_size", get_ref config "train_window_size_s"),
            ("add_mask", get_ref config "pad_mask") ],
        .call "pipeline.RandomSlice"
          [("window_size", get_ref config "train_window_size_s")],
        .call "pipeline.Batch"
          [ ("batch_size", get_ref config "batch_size"),
            ("split_across_devices", .bool true) ],
        .call "pipeline.RandomNormalizeAudio"
          [("min_gain", .num (15/100)), ("max_gain", .num (25/100))],
        .call "pipeline.Repeat" [] ]) ]
  split := "train"
  tfds_data_dir := get_ref config "tfds_data_dir"
  dataset_directory := train_dataset_dir

/-- Embedding of `get_supervised_eval_pipeline(config,
eval_dataset_dir)`: the ordered eval stage list. -/
def get_supervised_eval_pipeline (config : ConfigDict)
    (eval_dataset_dir : String) : PipelineSpec where
  pipeline := .call "pipeline.Pipeline"
    [ ("ops", .tup
      [ .call "pipeline.OnlyJaxTypes" [],
        .call "pipeline.ConvertBirdTaxonomyLabels"
          [ ("source_namespace", .str "ebird2021"),
            ("target_class_list", get_ref config "target_class_list"),
            ("add_taxonomic_labels", get_ref config "add_taxonomic_labels") ],
        .call "pipeline.Pad"
          [ ("pad_size", get_ref config "eval_window_size_s"),
            ("random", .bool false),
            ("add_mask", get_ref config "pad_mask") ],
        .call "pipeline.Slice"
          [ ("window_size", get_ref config "eval_window_size_s"),
            ("start", .num 0) ],
        .call "pipeline.Batch"
          [ ("batch_size", get_ref config "batch_size"),
            ("split_across_devices", .bool true) ],
        .call "pipeline.NormalizeAudio" [("target_gain", .num (2/10))] ]) ]
  split := "train"
  tfds_data_dir := get_ref config "tfds_data_dir"
  dataset_directory := eval_dataset_dir

/-- The stage list of a pipeline spec: the `ops` argument of its
deferred `pipeline.Pipeline` call. -/
def pipelineOps (p : PipelineSpec) : List Value :=
  match p.pipeline with
  | .call _ args =>
    match lookupField args "ops" with
    | some (.tup xs) => xs
    | _ => []
  | _ => []

/-- Index of the first stage of the given kind in a stage list. -/
def stageIdx (kind : String) : List Value → Option ℕ
  | [] => none
  | op :: rest =>
    match op with
    | .call k _ => if k = kind then some 0 else (stageIdx kind rest).map (· + 1)
    | _ => (stageIdx kind rest).map (· + 1)

/-- The named argument of the first stage of the given kind. -/
def stageArg (ops : List Value) (kind field : String) : Option Value :=
  ops.findSome? fun op =>
    match op with
    | .call k args => if k = kind then lookupField args field else none
    | _ => none

/-- The full argument list of the first stage of the given kind. -/
def stageArgs (ops : List Value) (kind : String) : Option (List (String × Value)) :=
  ops.findSome? fun op =>
    match op with
    | .call k args => if k = kind then some args else none
    | _ => none

/-- The named argument of a deferred call descriptor. -/
def callArg (v : Value) (field : String) : Option Value :=
  match v with
  | .call _ args => lookupField args field
  | _ => none

/-! Helper lemmas about field maps. -/

theorem lookup_setField_self (c : ConfigDict) (f : String) (v : Value) :
    lookupField (setField c f v) f = some v := by
  induction c with
  | nil => simp [setField, lookupField]
  | cons p rest ih =>
    obtain ⟨k, w⟩ := p
    by_cases h : k = f
    · simp [setField, h, lookupField]
    · simp [setField, h, lookupField, ih]

theorem configUpdate_append (xs ys : List (String × Value)) (c : ConfigDict) :
    configUpdate c (xs ++ ys) = configUpdate (configUpdate c xs) ys := by
  induction xs generalizing c with
  | nil => simp [configUpdate]
  | cons p rest ih =>
    obtain ⟨f, v⟩ := p
    simp [configUpdate, ih]

theorem setField_of_not_mem (c : ConfigDict) (f : String) (v : Value)
    (h : f ∉ fieldNames c) : setField c f v = c ++ [(f, v)] := by
  induction c with
  | nil => rfl
  | cons p rest ih =>
    obtain ⟨k, w⟩ := p
    simp only [fieldNames, List.map_cons, List.mem_cons] at h
    push_neg at h
    simp [setField, Ne.symm h.1, ih h.2]

theorem selectNfft_mem_le (k n : ℕ) (h : selectNfft k = .ok n) :
    n ∈ nfftLadder ∧ k ≤ n ∧ ∀ m ∈ nfftLadder, k ≤ m → n ≤ m := by
  unfold selectNfft at h
  split_ifs at h with h1 h2 h3 h4 h5 <;>
    first
    | (simp only [Except.ok.injEq] at h
       subst h
       refine ⟨by simp [nfftLadder], by omega, ?_⟩
       intro m hm hkm
       simp only [nfftLadder, List.mem_cons, List.not_mem_nil, or_false] at hm
       rcases hm with rfl | rfl | rfl | rfl | rfl <;> omega)
    | simp at h

theorem get_pcen_ok (sr fr n : ℕ) (h : selectNfft (2 * (sr / fr)) = .ok n) :
    get_pcen_melspec_config sr fr = .ok (.call "frontend.MelSpectrogram"
      [ ("features", .ref "num_channels"),
        ("stride", .num ((sr / fr : ℕ) : ℚ)),
        ("kernel_size", .num ((2 * (sr / fr) : ℕ) : ℚ)),
        ("nfft", .num n),
        ("sample_rate", .ref "sample_rate_hz"),
        ("freq_range", .tup [.num 60, .num 10000]),
        ("scaling_config", .call "frontend.PCENScalingConfig" [("conv_width", .num 256)]) ]) := by
  simp only [get_pcen_melspec_config]
  rw [h]

theorem callArg_stride_of_get_pcen_ok (sr fr n : ℕ)
    (h : selectNfft (2 * (sr / fr)) = .ok n) (c : Value)
    (hc : get_pcen_melspec_config sr fr = .ok c) :
    callArg c "stride" = some (.num ((sr / fr : ℕ) : ℚ)) ∧
    callArg c "kernel_size" = some (.num ((2 * (sr / fr) : ℕ) : ℚ)) ∧
    callArg c "nfft" = some (.num n) := by
  rw [get_pcen_ok sr fr n h] at hc
  injection hc with hc
  subst hc
  exact ⟨rfl, rfl, rfl⟩

theorem get_pcen_error (sr fr : ℕ) (e : String) (h : selectNfft (2 * (sr / fr)) = .error e) :
    get_pcen_melspec_config sr fr = .error e := by
  simp only [get_pcen_melspec_config]
  rw [h]

/-- C10: both the train and the eval pipeline specs carry the literal
split name "train"; the eval pipeline reads the same data partition as
the train pipeline, not an eval-specific one. -/
theorem c10_eval_split_train (config : ConfigDict) (mixin_prob : ℚ) (tdir edir : String) :
    (get_supervised_eval_pipeline config edir).split = "train" ∧
    (get_supervised_eval_pipeline config edir).split =
      (get_supervised_train_pipeline config mixin_prob tdir).split :=
  ⟨rfl, rfl⟩

/-- C2 (code bug): any input with derived kernel_size > 4096 makes the
derivation fail hard, but the raised message is the plain string literal
of presets.py line 127 — the f-string prefix is missing — so the message
shows the placeholder text and contains no digit at all, in particular
not the offending kernel size 6400 of the input (32000, 10). -/
theorem c2_code_bug_literal_message :
    4096 < 2 * (32000 / 10) ∧
    get_pcen_melspec_config 32000 10 = .error largeKernelMsg ∧
    largeKernelMsg = "Large kernel \x7bkernel_size\x7d; please define nfft." ∧
    largeKernelMsg.data.filter Char.isDigit = [] := by
  refine ⟨by decide, ?_, rfl, by decide⟩
  exact get_pcen_error 32000 10 _ rfl

/-- C1 (counterexample): with sample_rate_hz = 32000 and
frame_rate_hz = 300 — which does not evenly divide — the derivation does
not fail at all: it silently truncates to stride 106 and succeeds. -/
theorem c1_counterexample :
    ¬ (300 ∣ 32000) ∧ (32000 / 300 : ℕ) = 106 ∧
    ∃ c, get_pcen_melspec_config 32000 300 = .ok c ∧
      callArg c "stride" = some (.num ((32000 / 300 : ℕ) : ℚ)) := by
  refine ⟨by decide, by decide, _, get_pcen_ok 32000 300 256 rfl, rfl⟩

theorem selectNfft_isOk (k : ℕ) (hk : k ≤ 4096) : ∃ n, selectNfft k = .ok n := by
  unfold selectNfft
  split_ifs <;> first | exact ⟨_, rfl⟩ | omega

theorem selectNfft_isError (k : ℕ) (hk : 4096 < k) : selectNfft k = .error largeKernelMsg := by
  unfold selectNfft
  split_ifs <;> first | rfl | omega

/-- C1 (amended): for every positive frame_rate_hz, the deriver computes
stride as the truncating integer division sample_rate_hz // frame_rate_hz
and raises no error on non-divisibility or on a non-positive stride: it
succeeds whenever the derived kernel_size = 2 * stride is at most 4096,
and fails (only) when kernel_size exceeds 4096. -/
theorem c1_amended_truncation (sr fr : ℕ) (h : 0 < fr) :
    (2 * (sr / fr) ≤ 4096 →
      ∃ c, get_pcen_melspec_config sr fr = .ok c ∧
        callArg c "stride" = some (.num ((sr / fr : ℕ) : ℚ)) ∧
        callArg c "kernel_size" = some (.num ((2 * (sr / fr) : ℕ) : ℚ))) ∧
    (4096 < 2 * (sr / fr) → get_pcen_melspec_config sr fr = .error largeKernelMsg) := by
  constructor
  · intro hk
    obtain ⟨n, hn⟩ := selectNfft_isOk _ hk
    exact ⟨_, get_pcen_ok sr fr n hn, rfl, rfl⟩
  · intro hk
    exact get_pcen_error sr fr _ (selectNfft_isError _ hk)

theorem c1_amended_truncation_witness :
    0 < 300 ∧ ¬ (300 ∣ 32000) ∧ 2 * (32000 / 300) ≤ 4096 ∧
    ∃ c, get_pcen_melspec_config 32000 300 = .ok c ∧
      callArg c "stride" = some (.num ((32000 / 300 : ℕ) : ℚ)) ∧
      callArg c "kernel_size" = some (.num ((2 * (32000 / 300) : ℕ) : ℚ)) :=
  ⟨by decide, by decide, by decide,
    (c1_amended_truncation 32000 300 (by decide)).1 (by decide)⟩

/-- C3: whenever frame_rate_hz is positive and evenly divides
sample_rate_hz and the derivation succeeds, the descriptor carries
stride = sample_rate_hz / frame_rate_hz, kernel_size = 2 * stride, and
an nfft that is the smallest member of the ladder {256, 512, 1024,
2048, 4096} that is >= kernel_size; concretely (32000, 100) and
(16000, 50) both yield (stride, kernel_size, nfft) = (320, 640, 1024),
kernel_size 256 selects 256 (boundary inclusive), and 257 selects 512. -/
theorem c3_bucketing :
    (∀ sr fr : ℕ, 0 < fr → fr ∣ sr → ∀ c, get_pcen_melspec_config sr fr = .ok c →
      callArg c "stride" = some (.num ((sr / fr : ℕ) : ℚ)) ∧
      callArg c "kernel_size" = some (.num ((2 * (sr / fr) : ℕ) : ℚ)) ∧
      ∃ n : ℕ, callArg c "nfft" = some (.num n) ∧ n ∈ nfftLadder ∧
        2 * (sr / fr) ≤ n ∧ ∀ m ∈ nfftLadder, 2 * (sr / fr) ≤ m → n ≤ m) ∧
    (∃ c, get_pcen_melspec_config 32000 100 = .ok c ∧
      callArg c "stride" = some (.num 320) ∧
      callArg c "kernel_size" = some (.num 640) ∧
      callArg c "nfft" = some (.num 1024)) ∧
    (∃ c, get_pcen_melspec_config 16000 50 = .ok c ∧
      callArg c "stride" = some (.num 320) ∧
      callArg c "kernel_size" = some (.num 640) ∧
      callArg c "nfft" = some (.num 1024)) ∧
    selectNfft 256 = .ok 256 ∧ selectNfft 257 = .ok 512 := by
  refine ⟨?_, ⟨_, get_pcen_ok 32000 100 1024 rfl, rfl, rfl, rfl⟩,
    ⟨_, get_pcen_ok 16000 50 1024 rfl, rfl, rfl, rfl⟩, rfl, rfl⟩
  intro sr fr _ _ c hc
  rcases hsel : selectNfft (2 * (sr / fr)) with e | n
  · rw [get_pcen_error sr fr e hsel] at hc
    exact Except.noConfusion hc
  · rw [get_pcen_ok sr fr n hsel] at hc
    injection hc with hc
    subst hc
    obtain ⟨hmem, hle, hmin⟩ := selectNfft_mem_le _ _ hsel
    exact ⟨rfl, rfl, n, rfl, hmem, hle, hmin⟩

theorem c3_bucketing_witness :
    0 < (100 : ℕ) ∧ (100 : ℕ) ∣ 32000 ∧
    ∃ c, get_pcen_melspec_config 32000 100 = .ok c ∧
      callArg c "stride" = some (.num ((32000 / 100 : ℕ) : ℚ)) :=
  ⟨by decide, by decide, _, get_pcen_ok 32000 100 1024 rfl,
    (c3_bucketing.1 32000 100 (by decide) (by decide) _
      (get_pcen_ok 32000 100 1024 rfl)).1⟩

/-- C9: every successfully derived frontend descriptor carries the fixed
frequency range (60, 10000) Hz, independent of the base parameters. -/
theorem c9_freq_range (sr fr : ℕ) (c : Value)
    (h : get_pcen_melspec_config sr fr = .ok c) :
    callArg c "freq_range" = some (.tup [.num 60, .num 10000]) := by
  rcases hsel : selectNfft (2 * (sr / fr)) with e | n
  · rw [get_pcen_error sr fr e hsel] at h
    exact Except.noConfusion h
  · rw [get_pcen_ok sr fr n hsel] at h
    injection h with h
    subst h
    rfl

theorem c9_freq_range_witness :
    ∃ c, get_pcen_melspec_config 32000 100 = .ok c ∧
      callArg c "freq_range" = some (.tup [.num 60, .num 10000]) :=
  ⟨_, get_pcen_ok 32000 100 1024 rfl,
    c9_freq_range 32000 100 _ (get_pcen_ok 32000 100 1024 rfl)⟩

/-- C4: in the train pipeline the mix-in stage comes strictly before the
pad stage, the pad stage strictly before the slice stage, the slice
stage strictly before the batch stage, the batch stage strictly before
the repeat stage, and the repeat stage is last — for every base config,
mixin probability and dataset directory. -/
theorem c4_train_stage_order (config : ConfigDict) (mixin_prob : ℚ) (tdir : String) :
    ∃ im ip isl ib ir : ℕ,
      stageIdx "pipeline.MixAudio"
        (pipelineOps (get_supervised_train_pipeline config mixin_prob tdir)) = some im ∧
      stageIdx "pipeline.Pad"
        (pipelineOps (get_supervised_train_pipeline config mixin_prob tdir)) = some ip ∧
      stageIdx "pipeline.RandomSlice"
        (pipelineOps (get_supervised_train_pipeline config mixin_prob tdir)) = some isl ∧
      stageIdx "pipeline.Batch"
        (pipelineOps (get_supervised_train_pipeline config mixin_prob tdir)) = some ib ∧
      stageIdx "pipeline.Repeat"
        (pipelineOps (get_supervised_train_pipeline config mixin_prob tdir)) = some ir ∧
      im < ip ∧ ip < isl ∧ isl < ib ∧ ib < ir ∧
      ir = (pipelineOps (get_supervised_train_pipeline config mixin_prob tdir)).length - 1 :=
  ⟨3, 4, 5, 6, 8, rfl, rfl, rfl, rfl, rfl,
    by omega, by omega, by omega, by omega, rfl⟩

/-- C5: the eval pipeline has no repeat stage and no randomized stages:
no shuffle, no random slice, no random gain normalization; its pad stage
carries the deterministic flag random = false, its slice stage starts at
the fixed offset 0.0, and its normalization stage's full argument list
is the single fixed target gain 0.2 — for every base config and dataset
directory. -/
theorem c5_eval_deterministic (config : ConfigDict) (edir : String) :
    stageIdx "pipeline.Repeat"
      (pipelineOps (get_supervised_eval_pipeline config edir)) = none ∧
    stageIdx "pipeline.Shuffle"
      (pipelineOps (get_supervised_eval_pipeline config edir)) = none ∧
    stageIdx "pipeline.RandomSlice"
      (pipelineOps (get_supervised_eval_pipeline config edir)) = none ∧
    stageIdx "pipeline.RandomNormalizeAudio"
      (pipelineOps (get_supervised_eval_pipeline config edir)) = none ∧
    stageArg (pipelineOps (get_supervised_eval_pipeline config edir))
      "pipeline.Pad" "random" = some (.bool false) ∧
    stageArg (pipelineOps (get_supervised_eval_pipeline config edir))
      "pipeline.Slice" "start" = some (.num 0) ∧
    stageArgs (pipelineOps (get_supervised_eval_pipeline config edir))
      "pipeline.NormalizeAudio" = some [("target_gain", .num (2/10))] :=
  ⟨rfl, rfl, rfl, rfl, rfl, rfl, rfl⟩

/-- C6: for every base config whose batch_size is 64, composing both
pipelines from it and then overriding batch_size to 32 before resolution
makes the resolved batch-stage argument 32 in both the train and the
eval pipeline: the stage holds a live reference into the base node, not
a copy of the value it had at composition time. -/
theorem c6_reference_propagation (kwargs : List (String × Value)) (mixin_prob : ℚ)
    (tdir edir : String)
    (h : lookupField (get_base_config kwargs) "batch_size" = some (.num 64)) :
    (stageArg (pipelineOps
        (get_supervised_train_pipeline (get_base_config kwargs) mixin_prob tdir))
        "pipeline.Batch" "batch_size").bind
      (resolveValue (configUpdate (get_base_config kwargs) [("batch_size", .num 32)]))
      = some (.num 32) ∧
    (stageArg (pipelineOps
        (get_supervised_eval_pipeline (get_base_config kwargs) edir))
        "pipeline.Batch" "batch_size").bind
      (resolveValue (configUpdate (get_base_config kwargs) [("batch_size", .num 32)]))
      = some (.num 32) :=
  ⟨lookup_setField_self _ _ _, lookup_setField_self _ _ _⟩

theorem c6_reference_propagation_witness :
    lookupField (get_base_config []) "batch_size" = some (.num 64) ∧
    (stageArg (pipelineOps
        (get_supervised_train_pipeline (get_base_config []) (1/2) ""))
        "pipeline.Batch" "batch_size").bind
      (resolveValue (configUpdate (get_base_config []) [("batch_size", .num 32)]))
      = some (.num 32) :=
  ⟨rfl, (c6_reference_propagation [] (1/2) "" "" rfl).1⟩

/-- C7: for every base config whose train_window_size_s and
sample_rate_hz are numeric, the init configuration's input_shape field
resolves to a 1-tuple whose single element is the product
train_window_size_s * sample_rate_hz. -/
theorem c7_input_shape (kwargs : List (String × Value)) (w sr : ℚ)
    (hw : lookupField (get_base_config kwargs) "train_window_size_s" = some (.num w))
    (hs : lookupField (get_base_config kwargs) "sample_rate_hz" = some (.num sr)) :
    (lookupField (get_base_init_config (get_base_config kwargs) []) "input_shape").bind
      (resolveValue (get_base_config kwargs)) = some (.tup [.num (w * sr)]) := by
  have h1 : lookupField (get_base_init_config (get_base_config kwargs) []) "input_shape"
      = some (.tup [.mul (.ref "train_window_size_s") (.ref "sample_rate_hz")]) := rfl
  rw [h1, Option.some_bind]
  simp only [resolveValue, resolveList, hw, hs, Option.bind_eq_bind, Option.some_bind,
    Option.map_some]
  rfl

theorem c7_input_shape_witness :
    lookupField (get_base_config []) "train_window_size_s" = some (.num 5) ∧
    lookupField (get_base_config []) "sample_rate_hz" = some (.num 32000) ∧
    (lookupField (get_base_init_config (get_base_config []) []) "input_shape").bind
      (resolveValue (get_base_config [])) = some (.tup [.num (5 * 32000)]) :=
  ⟨rfl, rfl, c7_input_shape [] 5 32000 rfl rfl⟩

/-- C8: when constructing the base config, every override wins over any
earlier value of the same field (defaults and earlier kwargs alike), and
an override whose field name is not among the node's fields appends the
new field at the end rather than failing. -/
theorem c8_override_append (kwargs : List (String × Value)) (f : String) (v : Value) :
    lookupField (get_base_config (kwargs ++ [(f, v)])) f = some v ∧
    (f ∉ fieldNames (get_base_config kwargs) →
      fieldNames (get_base_config (kwargs ++ [(f, v)])) =
        fieldNames (get_base_config kwargs) ++ [f]) := by
  have key : get_base_config (kwargs ++ [(f, v)])
      = setField (get_base_config kwargs) f v := by
    unfold get_base_config
    rw [configUpdate_append]
    rfl
  refine ⟨?_, ?_⟩
  · rw [key]
    exact lookup_setField_self _ _ _
  · intro h
    rw [key, setField_of_not_mem _ _ _ h]
    simp [fieldNames]

theorem c8_override_append_witness :
    ("extra_field" ∉ fieldNames (get_base_config [])) ∧
    lookupField (get_base_config ([] ++ [("extra_field", Value.num 7)])) "extra_field"
      = some (Value.num 7) ∧
    fieldNames (get_base_config ([] ++ [("extra_field", Value.num 7)])) =
      fieldNames (get_base_config []) ++ ["extra_field"] :=
  ⟨by decide, (c8_override_append [] "extra_field" (.num 7)).1,
    (c8_override_append [] "extra_field" (.num 7)).2 (by decide)⟩
